import Mathlib

/-!
Verification of the streaming response bridge of `backend/app.py`
(Flask + Server-Sent Events chat relay).

The core under study is the generator `chat_stream.generate`
(src/backend/app.py, lines 184-233): a producer thread `run_chat` posts
pairs `('token', data)`, `('done', data)`, `('error', data)` into a FIFO
`queue.Queue`, and the consumer loop repeatedly calls
`token_queue.get(timeout=60)`, yielding one SSE frame per event, a ping
frame on each timeout, and breaking after a `done` or `error` event.

The shallow embedding models:
- the queue events (`QEvent`) and the per-iteration receive outcome
  (`RecvOutcome`: an event arrived, or the 60-second wait timed out);
- the consumer loop as a function from the sequence of receive outcomes
  to the list of yielded frames (`generateFrames`) together with the
  frame formatter `encodeFrame` embedding the f-strings of lines 221-231,
  including a faithful model of Python `json.dumps` on string-valued
  dicts (default separators, default `ensure_ascii=True`);
- the producer `run_chat` (lines 193-210) as the list of events it posts;
- the endpoint validation of `chat_stream` (lines 168-184) and the
  session-registry endpoint `reset` (lines 245-255).
-/

namespace Mgp

/-- An event placed into the relay queue `token_queue` by the producer
(src/backend/app.py lines 189-210): `('token', data)` from the `on_token`
callback, `('done', response)` on normal completion, `('error', str(e))`
when the generation call raises. -/
inductive QEvent where
  | token (data : String)
  | done (data : String)
  | error (data : String)
deriving DecidableEq

/-- Whether a queue event is terminal (`done` or `error`): the consumer
loop breaks after yielding the corresponding frame (lines 223-228). -/
def QEvent.isTerminal : QEvent → Bool
  | .token _ => false
  | .done _ => true
  | .error _ => true

/-- The outcome of one `token_queue.get(timeout=60)` call in the consumer
loop (lines 218-229): either an event is dequeued, or `queue.Empty` is
raised after 60 seconds of inactivity. -/
inductive RecvOutcome where
  | event (e : QEvent)
  | timeout
deriving DecidableEq

/-- One frame of the consumer-facing stream, before wire encoding:
`token`, `done` and `error` frames carry the event payload, `ping` is
synthesized by the consumer on a timeout (line 231). -/
inductive Frame where
  | token (content : String)
  | done (content : String)
  | error (content : String)
  | ping
deriving DecidableEq

/-- Whether a frame is terminal (a `done` or `error` frame). -/
def Frame.isTerminal : Frame → Bool
  | .token _ => false
  | .done _ => true
  | .error _ => true
  | .ping => false

/-- Lowercase hexadecimal digit, as produced by Python `json.dumps`
in its `\uXXXX` escapes. -/
def hexDigit (n : Nat) : Char :=
  if n < 10 then Char.ofNat (48 + n) else Char.ofNat (97 + (n - 10))

/-- Four lowercase hex digits of a number below 2^16. -/
def hex4 (n : Nat) : String :=
  String.mk [hexDigit (n / 4096 % 16), hexDigit (n / 256 % 16),
             hexDigit (n / 16 % 16), hexDigit (n % 16)]

/-- Escape of one character in a JSON string literal, as Python
`json.dumps` does with its default `ensure_ascii=True`: short escapes for
quote, backslash and the usual control characters, `\uXXXX` for other
control characters and all non-ASCII characters (surrogate pairs above
the basic plane), everything in the printable ASCII range literal. -/
def pyJsonEscapeChar (c : Char) : String :=
  if c = '"' then "\\\""
  else if c = '\\' then "\\\\"
  else if c = '\n' then "\\n"
  else if c = '\r' then "\\r"
  else if c = '\t' then "\\t"
  else if c.toNat = 8 then "\\b"
  else if c.toNat = 12 then "\\f"
  else if c.toNat < 32 then "\\u" ++ hex4 c.toNat
  else if c.toNat < 127 then String.mk [c]
  else if c.toNat < 65536 then "\\u" ++ hex4 c.toNat
  else
    "\\u" ++ hex4 (55296 + (c.toNat - 65536) / 1024) ++
    "\\u" ++ hex4 (56320 + (c.toNat - 65536) % 1024)

/-- Python `json.dumps` rendering of one string. -/
def pyJsonStr (s : String) : String :=
  "\"" ++ String.join (s.data.map pyJsonEscapeChar) ++ "\""

/-- Python `json.dumps` of a dict with string keys and string values,
default separators: entries joined by a comma and a space, a colon and a
space between key and value. -/
def pyJsonDumps (kvs : List (String × String)) : String :=
  "\x7b" ++
    String.intercalate ", "
      (kvs.map fun kv => pyJsonStr kv.1 ++ ": " ++ pyJsonStr kv.2) ++
  "\x7d"

/-- Wire encoding of one frame: the f-strings of lines 221-231, each
frame being `data: ` followed by the `json.dumps` of the event dict and
a blank line. The `ping` dict has no `content` key. -/
def encodeFrame : Frame → String
  | .token d => "data: " ++ pyJsonDumps [("type", "token"), ("content", d)] ++ "\n\n"
  | .done d => "data: " ++ pyJsonDumps [("type", "done"), ("content", d)] ++ "\n\n"
  | .error d => "data: " ++ pyJsonDumps [("type", "error"), ("content", d)] ++ "\n\n"
  | .ping => "data: " ++ pyJsonDumps [("type", "ping")] ++ "\n\n"

/-- The consumer loop of `chat_stream.generate` (lines 217-233), as a
function of the sequence of receive outcomes: a timeout yields a ping and
the loop continues; a `token` event yields a token frame and the loop
continues; a `done` or `error` event yields the corresponding frame and
the loop breaks, so any later outcomes are never consumed. -/
def generateFrames : List RecvOutcome → List Frame
  | [] => []
  | .timeout :: rest => .ping :: generateFrames rest
  | .event (.token d) :: rest => .token d :: generateFrames rest
  | .event (.done d) :: _ => [.done d]
  | .event (.error d) :: _ => [.error d]

/-- The strings yielded by `chat_stream.generate` for a sequence of
receive outcomes: each frame of the loop, wire-encoded by the f-string
of its branch. -/
def generateYields (outs : List RecvOutcome) : List String :=
  (generateFrames outs).map encodeFrame

/-- The Generation Source (`handler.chat_stream`, an external
collaborator): it invokes the `on_token` callback once per element of
`tokens`, in order, and then either returns the full response text
(`Except.ok`) or raises a failure whose `str` is the carried message
(`Except.error`). -/
structure GenSource where
  tokens : List String
  result : Except String String

/-- The producer `run_chat` (lines 193-210), as the list of events it
posts into `token_queue`, in post order: one `token` event per callback
invocation, then `('done', response)` if the generation call returns, or
`('error', str(e))` if it raises — the `try`/`except` converts every
failure into a terminal `error` event instead of letting it escape the
producer thread, which is why this function is total. -/
def run_chat (gen : GenSource) : List QEvent :=
  gen.tokens.map QEvent.token ++
    [match gen.result with
     | .ok response => QEvent.done response
     | .error e => QEvent.error e]

/-- The frame the consumer yields for one dequeued event
(lines 221-228). -/
def eventFrame : QEvent → Frame
  | .token d => .token d
  | .done d => .done d
  | .error d => .error d

/-- Modelled from the spec: the session handler (`YandexGPTHandler` of
`backend/yandex_handler.py`, a file not present under src/). Per the spec
it owns the accumulated conversation history (`input_list`, whose length
line 182 reports) and model configuration (`model`, line 181); its
`reset` method clears the history. -/
structure Handler where
  model : String
  input_list : List String
deriving DecidableEq

/-- Modelled from the spec: `YandexGPTHandler.reset` clears the handler's
conversation history and touches nothing else. -/
def Handler.reset (h : Handler) : Handler :=
  { h with input_list := [] }

/-- Modelled from the spec: `YandexGPTHandler()` constructs a fresh
handler with an empty history. -/
def Handler.init : Handler :=
  { model := "yandexgpt", input_list := [] }

/-- The global registry `handlers` (line 88): a mapping from session
identifier to handler, absent sessions mapped to `none`. -/
abbrev Registry := String → Option Handler

/-- `get_handler` (lines 90-94): return the session's handler, creating
and registering a fresh one when the session is unknown. Returns the
possibly-extended registry together with the resolved handler. -/
def get_handler (handlers : Registry) (session_id : String) :
    Registry × Handler :=
  match handlers session_id with
  | some h => (handlers, h)
  | none =>
      (fun s => if s = session_id then some Handler.init else handlers s,
       Handler.init)

/-- A parsed JSON request body, with the two fields the chat endpoints
read; a missing field is `none`. -/
structure ChatRequest where
  message : Option String
  session_id : Option String
deriving DecidableEq

/-- The outcome of the `chat_stream` endpoint before any frame is
emitted: either an early JSON error response with an HTTP status
(line 178, before the bridge is created), or the streaming response of
line 235 with the session and message the bridge will use. -/
inductive ChatStreamResponse where
  | rejected (status : Nat) (error : String)
  | streamStarted (session_id : String) (message : String)
deriving DecidableEq

/-- Whether the endpoint outcome is an early rejection. -/
def ChatStreamResponse.isRejected : ChatStreamResponse → Bool
  | .rejected _ _ => true
  | .streamStarted _ _ => false

/-- The request handling of the `chat_stream` endpoint (lines 168-184):
`message` defaults to the empty string and `session_id` defaults to
`'default'` when absent from the body (`data.get`); an empty message is
rejected with HTTP 400 and the JSON error `Empty message` before the
handler is resolved and the generator is created; otherwise the stream
starts for the defaulted session and message. -/
def chat_stream (req : ChatRequest) : ChatStreamResponse :=
  let message := req.message.getD ""
  let session_id := req.session_id.getD "default"
  if message = "" then .rejected 400 "Empty message"
  else .streamStarted session_id message

/-- The frames the `chat_stream` endpoint emits for a request, given the
receive outcomes of the consumer loop: a rejected request returns a plain
JSON error body and never reaches `generate`, so it emits no frame; a
started stream emits the frames of the consumer loop. -/
def responseFrames (resp : ChatStreamResponse) (outs : List RecvOutcome) :
    List Frame :=
  match resp with
  | .rejected _ _ => []
  | .streamStarted _ _ => generateFrames outs

/-- The body of a reset request; line 248 makes a missing body behave
as an empty dict, so the field is simply absent then. -/
structure ResetRequest where
  session_id : Option String
deriving DecidableEq

/-- The `reset` endpoint (lines 245-255): `session_id` defaults to
`'default'`; when the session is registered its handler's history is
cleared in place, otherwise nothing happens; either way the JSON body
with status `ok` is returned. The result pairs the updated registry with
the returned status. -/
def reset (handlers : Registry) (req : ResetRequest) : Registry × String :=
  let session_id := req.session_id.getD "default"
  match handlers session_id with
  | some h =>
      (fun s => if s = session_id then some h.reset else handlers s, "ok")
  | none => (handlers, "ok")

/-- A concrete registry with two live sessions, used by the concrete
instantiations below. -/
def sampleRegistry : Registry :=
  fun s =>
    if s = "alice" then some { model := "m", input_list := ["hi"] }
    else if s = "bob" then some { model := "m", input_list := [] }
    else none

/-! ### Helper lemmas about the consumer loop -/

/-- Relaying a block of token events yields the token frames in order and
leaves the rest of the run unchanged. -/
lemma generateFrames_token_block (tokens : List String)
    (rest : List RecvOutcome) :
    generateFrames ((tokens.map QEvent.token).map RecvOutcome.event ++ rest)
      = tokens.map Frame.token ++ generateFrames rest := by
  induction tokens with
  | nil => simp
  | cons t ts ih => simpa [generateFrames] using ih

/-- A terminal event at the head of the remaining run yields exactly its
frame; everything after it is never consumed. -/
lemma generateFrames_terminal_head (e : QEvent) (junk : List RecvOutcome)
    (he : e.isTerminal = true) :
    generateFrames (RecvOutcome.event e :: junk) = [eventFrame e] := by
  cases e with
  | token d => simp [QEvent.isTerminal] at he
  | done d => simp [generateFrames, eventFrame]
  | error d => simp [generateFrames, eventFrame]

/-- Outcomes sitting behind a terminal event never influence the yielded
frames: the loop breaks at the terminal frame. -/
lemma generateFrames_stop_at_terminal (pre : List RecvOutcome) (e : QEvent)
    (junk : List RecvOutcome) (he : e.isTerminal = true) :
    generateFrames (pre ++ RecvOutcome.event e :: junk)
      = generateFrames (pre ++ [RecvOutcome.event e]) := by
  induction pre with
  | nil =>
      simp only [List.nil_append]
      rw [generateFrames_terminal_head e junk he,
        generateFrames_terminal_head e [] he]
  | cons o os ih =>
      cases o with
      | timeout => simp [generateFrames, ih]
      | event ev => cases ev <;> simp [generateFrames, ih]

/-- A block of timeouts yields one ping each and the loop continues with
the rest of the run. -/
lemma generateFrames_timeout_block (n : Nat) (rest : List RecvOutcome) :
    generateFrames (List.replicate n RecvOutcome.timeout ++ rest)
      = List.replicate n Frame.ping ++ generateFrames rest := by
  induction n with
  | zero => simp
  | succ m ih => simpa [List.replicate_succ, generateFrames] using ih

/-- A run in which no wait times out yields no ping frame: pings are
synthesized only by the timeout branch, never dequeued. -/
lemma ping_not_mem_of_no_timeout (outs : List RecvOutcome)
    (h : ∀ o ∈ outs, o ≠ RecvOutcome.timeout) :
    Frame.ping ∉ generateFrames outs := by
  induction outs with
  | nil => simp [generateFrames]
  | cons o os ih =>
      cases o with
      | timeout => exact absurd rfl (h _ (by simp))
      | event ev =>
          cases ev with
          | token d =>
              rw [generateFrames]
              intro hmem
              rcases List.mem_cons.mp hmem with hbad | hmem
              · exact Frame.noConfusion hbad
              · exact ih (fun o ho => h o (List.mem_cons_of_mem _ ho)) hmem
          | done d => simp [generateFrames]
          | error d => simp [generateFrames]

/-- A member of the dropLast of a cons is the head or a member of the
dropLast of the tail. -/
lemma mem_dropLast_cons {α : Type} {fr a : α} {l : List α}
    (h : fr ∈ (a :: l).dropLast) : fr = a ∨ fr ∈ l.dropLast := by
  cases l with
  | nil => simp [List.dropLast] at h
  | cons b bs =>
      rw [List.dropLast_cons₂] at h
      exact List.mem_cons.mp h

/-- In any run, every yielded frame except possibly the last is
non-terminal: the loop breaks immediately after a terminal frame. -/
lemma no_early_terminal (outs : List RecvOutcome) :
    ∀ fr ∈ (generateFrames outs).dropLast, fr.isTerminal = false := by
  induction outs with
  | nil => simp [generateFrames]
  | cons o os ih =>
      cases o with
      | timeout =>
          intro fr hfr
          rw [generateFrames] at hfr
          rcases mem_dropLast_cons hfr with rfl | hfr
          · rfl
          · exact ih fr hfr
      | event ev =>
          cases ev with
          | token d =>
              intro fr hfr
              rw [generateFrames] at hfr
              rcases mem_dropLast_cons hfr with rfl | hfr
              · rfl
              · exact ih fr hfr
          | done d => simp [generateFrames]
          | error d => simp [generateFrames]

/-- The producer posts, on every run, its callback tokens followed by
exactly one terminal event: the try block posts `done` on return and the
except block posts `error` on a raise. -/
lemma run_chat_shape (gen : GenSource) :
    ∃ t, QEvent.isTerminal t = true ∧
      run_chat gen = gen.tokens.map QEvent.token ++ [t] := by
  cases h : gen.result with
  | ok r => exact ⟨QEvent.done r, rfl, by simp [run_chat, h]⟩
  | error e => exact ⟨QEvent.error e, rfl, by simp [run_chat, h]⟩

/-! ### The claims -/

/-- C1: when the producer posts a finite sequence of token events
followed by exactly one terminal event (done or error) into the relay
queue, the consumer yields one token frame per posted token in exactly
the posted order, then the single terminal frame, and stops after it:
whatever outcomes follow the terminal event are never consumed, and no
frame before the terminal one is itself terminal. -/
theorem c1_tokens_in_order_then_one_terminal (tokens : List String)
    (term : QEvent) (hterm : term.isTerminal = true)
    (junk : List RecvOutcome) :
    generateFrames
        ((tokens.map QEvent.token ++ [term]).map RecvOutcome.event ++ junk)
      = tokens.map Frame.token ++ [eventFrame term]
    ∧ (eventFrame term).isTerminal = true
    ∧ ∀ fr ∈ tokens.map Frame.token, fr.isTerminal = false := by
  refine ⟨?_, ?_, ?_⟩
  · rw [List.map_append, List.append_assoc, generateFrames_token_block]
    simp only [List.map_cons, List.map_nil, List.singleton_append]
    rw [generateFrames_terminal_head term junk hterm]
  · cases term with
    | token d => simp [QEvent.isTerminal] at hterm
    | done d => rfl
    | error d => rfl
  · intro fr hfr
    rcases List.mem_map.mp hfr with ⟨t, _, rfl⟩
    rfl

/-- C1 witness: the theorem instantiated at the posted run
token a, token b, done ab, with a stray token event sitting behind the
terminal event. -/
theorem c1_witness :
    QEvent.isTerminal (QEvent.done "ab") = true
    ∧ (generateFrames
          (((["a", "b"].map QEvent.token ++ [QEvent.done "ab"]).map
              RecvOutcome.event) ++ [RecvOutcome.event (QEvent.token "z")])
        = ["a", "b"].map Frame.token ++ [eventFrame (QEvent.done "ab")]
      ∧ (eventFrame (QEvent.done "ab")).isTerminal = true
      ∧ ∀ fr ∈ ["a", "b"].map Frame.token, fr.isTerminal = false) :=
  ⟨rfl,
   c1_tokens_in_order_then_one_terminal ["a", "b"] (QEvent.done "ab")
     (by decide) [RecvOutcome.event (QEvent.token "z")]⟩

/-- C2: when the generation call raises after posting some tokens, the
producer's try/except posts those tokens and then a single error event
carrying the failure message, so the consumer yields every already-posted
token frame in order, then exactly one error frame with that message, and
nothing further — the failure reaches the consumer only as that frame,
never as a fault: the producer run is a total function of the source. -/
theorem c2_failure_becomes_single_error_frame (tokens : List String)
    (msg : String) (junk : List RecvOutcome) :
    generateFrames
        ((run_chat { tokens := tokens, result := Except.error msg }).map
            RecvOutcome.event ++ junk)
      = tokens.map Frame.token ++ [Frame.error msg] := by
  show generateFrames
      ((tokens.map QEvent.token ++ [QEvent.error msg]).map
          RecvOutcome.event ++ junk) = _
  rw [List.map_append, List.append_assoc, generateFrames_token_block]
  simp only [List.map_cons, List.map_nil, List.singleton_append]
  rw [generateFrames_terminal_head (QEvent.error msg) junk rfl]
  rfl

/-- C3: a timed-out wait yields exactly one ping and the loop resumes
waiting — any number of consecutive timeouts yields that many pings and
the run simply continues, never terminating the turn by itself; and the
ping never travels through the relay queue: a run whose waits never time
out contains no ping frame. -/
theorem c3_timeout_pings_and_never_terminates :
    (∀ (n : Nat) (rest : List RecvOutcome),
        generateFrames (List.replicate n RecvOutcome.timeout ++ rest)
          = List.replicate n Frame.ping ++ generateFrames rest)
    ∧ (∀ outs : List RecvOutcome,
        (∀ o ∈ outs, o ≠ RecvOutcome.timeout) →
        Frame.ping ∉ generateFrames outs) :=
  ⟨generateFrames_timeout_block, ping_not_mem_of_no_timeout⟩

/-- C3 witness: two consecutive timeouts before a done event yield two
pings and then continue into the rest of the run; a timeout-free run
holds no ping frame. -/
theorem c3_witness :
    generateFrames
        (List.replicate 2 RecvOutcome.timeout
          ++ [RecvOutcome.event (QEvent.done "r")])
      = List.replicate 2 Frame.ping
          ++ generateFrames [RecvOutcome.event (QEvent.done "r")]
    ∧ Frame.ping ∉ generateFrames
        [RecvOutcome.event (QEvent.token "a"),
         RecvOutcome.event (QEvent.done "r")] :=
  ⟨c3_timeout_pings_and_never_terminates.1 2 _,
   c3_timeout_pings_and_never_terminates.2 _ (by decide)⟩

/-- C4: every string the stream yields is one SSE frame
`data: <json>` followed by a blank line, where the json is the dump of
one of exactly four dicts: type token with the fragment as content, type
done with the full response as content, type error with the message as
content, or type ping with no content key at all. -/
theorem c4_wire_format_of_every_frame (outs : List RecvOutcome)
    (fr : String) (h : fr ∈ generateYields outs) :
    (∃ c, fr = "data: "
        ++ pyJsonDumps [("type", "token"), ("content", c)] ++ "\n\n")
    ∨ (∃ c, fr = "data: "
        ++ pyJsonDumps [("type", "done"), ("content", c)] ++ "\n\n")
    ∨ (∃ c, fr = "data: "
        ++ pyJsonDumps [("type", "error"), ("content", c)] ++ "\n\n")
    ∨ fr = "data: " ++ pyJsonDumps [("type", "ping")] ++ "\n\n" := by
  rcases List.mem_map.mp h with ⟨f, _, rfl⟩
  cases f with
  | token d => exact Or.inl ⟨d, rfl⟩
  | done d => exact Or.inr (Or.inl ⟨d, rfl⟩)
  | error d => exact Or.inr (Or.inr (Or.inl ⟨d, rfl⟩))
  | ping => exact Or.inr (Or.inr (Or.inr rfl))

/-- C4 witness: the theorem applied to the frame yielded by a run of one
timed-out wait, which is the ping frame. -/
theorem c4_witness :
    (∃ c, encodeFrame Frame.ping = "data: "
        ++ pyJsonDumps [("type", "token"), ("content", c)] ++ "\n\n")
    ∨ (∃ c, encodeFrame Frame.ping = "data: "
        ++ pyJsonDumps [("type", "done"), ("content", c)] ++ "\n\n")
    ∨ (∃ c, encodeFrame Frame.ping = "data: "
        ++ pyJsonDumps [("type", "error"), ("content", c)] ++ "\n\n")
    ∨ encodeFrame Frame.ping
        = "data: " ++ pyJsonDumps [("type", "ping")] ++ "\n\n" :=
  c4_wire_format_of_every_frame [RecvOutcome.timeout]
    (encodeFrame Frame.ping)
    (by simp [generateYields, generateFrames])

/-- C5 counterexample: on the concrete run where the producer context has
died without posting anything — every wait on the relay queue times
out — the consumer never surfaces an error frame, however many waits
elapse: the bridge pings forever instead of eventually yielding an
Error. -/
theorem c5_counterexample_silent_death_never_errors :
    ¬ ∃ (n : Nat) (s : String),
        Frame.error s ∈ generateFrames (List.replicate n RecvOutcome.timeout) := by
  rintro ⟨n, s, hmem⟩
  have hrun : generateFrames (List.replicate n RecvOutcome.timeout)
      = List.replicate n Frame.ping := by
    simpa [generateFrames] using generateFrames_timeout_block n []
  rw [hrun] at hmem
  exact Frame.noConfusion (List.eq_of_mem_replicate hmem)

/-- C5 amended: if the producer context exits without posting a terminal
event, the consumer does not eventually surface an Error — it yields
exactly one ping per timed-out wait, indefinitely, and the turn never
ends; the code instead relies on the producer itself, whose try/except
posts its tokens followed by exactly one terminal event on every run of
the generation call (return or raise), so the uncovered path needs a
failure outside that exception handling. -/
theorem c5_silent_death_pings_forever_producer_guarantees_terminal :
    (∀ n : Nat, generateFrames (List.replicate n RecvOutcome.timeout)
        = List.replicate n Frame.ping)
    ∧ (∀ gen : GenSource, ∃ t, QEvent.isTerminal t = true ∧
        run_chat gen = gen.tokens.map QEvent.token ++ [t]) :=
  ⟨fun n => by simpa [generateFrames] using generateFrames_timeout_block n [],
   run_chat_shape⟩

/-- C6 counterexample: a request whose body has a message but no session
identifier at all is not rejected — the endpoint silently defaults the
session to `default` and starts the stream. -/
theorem c6_counterexample_missing_session_id_not_rejected :
    chat_stream { message := some "hi", session_id := none }
      = ChatStreamResponse.streamStarted "default" "hi"
    ∧ (chat_stream
        { message := some "hi", session_id := none }).isRejected = false := by
  constructor <;> rfl

/-- C6 amended: only a missing or empty message is rejected before the
bridge starts (HTTP 400 with the JSON error `Empty message`, which is not
a Stream Event); a missing session identifier is not rejected — it is
defaulted to `default` and the stream starts with the defaulted session
and the given message. -/
theorem c6_only_empty_message_rejected_session_defaulted
    (req : ChatRequest) :
    (req.message.getD "" = "" →
        chat_stream req = ChatStreamResponse.rejected 400 "Empty message")
    ∧ (req.message.getD "" ≠ "" →
        chat_stream req = ChatStreamResponse.streamStarted
          (req.session_id.getD "default") (req.message.getD "")) := by
  constructor <;> intro h <;> simp [chat_stream, h]

/-- C6 witness: the amended theorem applied to a message-less request,
which is rejected, and to a session-less request, which streams for the
default session. -/
theorem c6_witness :
    chat_stream { message := none, session_id := some "s" }
      = ChatStreamResponse.rejected 400 "Empty message"
    ∧ chat_stream { message := some "hello", session_id := none }
      = ChatStreamResponse.streamStarted "default" "hello" :=
  ⟨(c6_only_empty_message_rejected_session_defaulted
      { message := none, session_id := some "s" }).1 (by decide),
   (c6_only_empty_message_rejected_session_defaulted
      { message := some "hello", session_id := none }).2 (by decide)⟩

/-- C7: a streaming chat request whose message is empty (or absent, which
defaults to empty) is answered with the HTTP 400 JSON error
`Empty message` before the handler is resolved and before the producer
thread and relay queue exist, and such a response emits no stream frame
whatever the consumer-loop outcomes would have been. -/
theorem c7_empty_message_rejected_before_bridge (req : ChatRequest)
    (outs : List RecvOutcome) (h : req.message.getD "" = "") :
    chat_stream req = ChatStreamResponse.rejected 400 "Empty message"
    ∧ responseFrames (chat_stream req) outs = [] := by
  have hrej : chat_stream req
      = ChatStreamResponse.rejected 400 "Empty message" := by
    simp [chat_stream, h]
  exact ⟨hrej, by simp [responseFrames, hrej]⟩

/-- C7 witness: the theorem applied to a request carrying an explicitly
empty message, with a pending done event that is never encoded. -/
theorem c7_witness :
    ({ message := some "", session_id := some "u" } : ChatRequest).message.getD ""
      = ""
    ∧ (chat_stream { message := some "", session_id := some "u" }
        = ChatStreamResponse.rejected 400 "Empty message"
      ∧ responseFrames
          (chat_stream { message := some "", session_id := some "u" })
          [RecvOutcome.event (QEvent.done "r")] = []) :=
  ⟨rfl,
   c7_empty_message_rejected_before_bridge
     { message := some "", session_id := some "u" }
     [RecvOutcome.event (QEvent.done "r")] rfl⟩

/-- C8: the reset endpoint returns the status ok for every registry and
every request; when the (defaulted) session is registered, its handler's
history is cleared while its model configuration is kept; when it is
unknown, the registry is left exactly as it was. -/
theorem c8_reset_ok_clears_present_noop_absent (handlers : Registry)
    (req : ResetRequest) :
    (reset handlers req).2 = "ok"
    ∧ (∀ h, handlers (req.session_id.getD "default") = some h →
        (reset handlers req).1 (req.session_id.getD "default")
          = some { model := h.model, input_list := [] })
    ∧ (handlers (req.session_id.getD "default") = none →
        (reset handlers req).1 = handlers) := by
  rcases hcase : handlers (req.session_id.getD "default") with _ | hdl
  · refine ⟨by simp [reset, hcase], ?_, ?_⟩
    · intro h hsome
      exact Option.noConfusion hsome
    · intro _
      simp [reset, hcase]
  · refine ⟨by simp [reset, hcase], ?_, ?_⟩
    · intro h hsome
      injection hsome with hh
      subst hh
      simp [reset, hcase, Handler.reset]
    · intro hnone
      exact Option.noConfusion hnone

/-- C8 witness: resetting the live session alice returns ok and clears
her history; resetting the unknown session zoe returns ok and leaves the
registry untouched. -/
theorem c8_witness :
    (reset sampleRegistry { session_id := some "alice" }).2 = "ok"
    ∧ (reset sampleRegistry { session_id := some "alice" }).1 "alice"
        = some { model := "m", input_list := [] }
    ∧ (reset sampleRegistry { session_id := some "zoe" }).1 = sampleRegistry :=
  ⟨(c8_reset_ok_clears_present_noop_absent sampleRegistry
      { session_id := some "alice" }).1,
   (c8_reset_ok_clears_present_noop_absent sampleRegistry
      { session_id := some "alice" }).2.1
     { model := "m", input_list := ["hi"] } (by decide),
   (c8_reset_ok_clears_present_noop_absent sampleRegistry
      { session_id := some "zoe" }).2.2 (by decide)⟩

/-- C9: whatever sits in the relay queue — including events a misbehaving
producer would have posted after a terminal one — once the consumer has
yielded a done or error frame it yields nothing further: in every run all
frames before the last are non-terminal, and the frames of a run are
unchanged by anything enqueued behind the first terminal event. -/
theorem c9_nothing_after_terminal_frame :
    (∀ outs : List RecvOutcome,
        ∀ fr ∈ (generateFrames outs).dropLast, fr.isTerminal = false)
    ∧ (∀ (pre : List RecvOutcome) (e : QEvent) (junk : List RecvOutcome),
        QEvent.isTerminal e = true →
        generateFrames (pre ++ RecvOutcome.event e :: junk)
          = generateFrames (pre ++ [RecvOutcome.event e])) :=
  ⟨no_early_terminal, generateFrames_stop_at_terminal⟩

/-- C9 witness: in the run token a, error boom, late token, the frame
before the last is the non-terminal token frame, and the late token event
behind the terminal error changes nothing. -/
theorem c9_witness :
    Frame.isTerminal (Frame.token "a") = false
    ∧ generateFrames
        ([RecvOutcome.event (QEvent.token "a")]
          ++ RecvOutcome.event (QEvent.error "boom")
            :: [RecvOutcome.event (QEvent.token "late")])
      = generateFrames
        ([RecvOutcome.event (QEvent.token "a")]
          ++ [RecvOutcome.event (QEvent.error "boom")]) :=
  ⟨c9_nothing_after_terminal_frame.1
     [RecvOutcome.event (QEvent.token "a"),
      RecvOutcome.event (QEvent.error "boom")]
     (Frame.token "a") (by decide),
   c9_nothing_after_terminal_frame.2
     [RecvOutcome.event (QEvent.token "a")] (QEvent.error "boom")
     [RecvOutcome.event (QEvent.token "late")] (by decide)⟩

/-- C10: the reset endpoint never adds or removes a registry entry — in
particular it never creates a handler for an unknown session, unlike
get_handler — and every session other than the (defaulted) requested one
keeps exactly its previous handler. -/
theorem c10_reset_preserves_domain_and_other_sessions
    (handlers : Registry) (req : ResetRequest) (sid : String) :
    ((reset handlers req).1 sid).isSome = (handlers sid).isSome
    ∧ (sid ≠ req.session_id.getD "default" →
        (reset handlers req).1 sid = handlers sid) := by
  rcases hcase : handlers (req.session_id.getD "default") with _ | hdl
  · constructor
    · simp [reset, hcase]
    · intro _
      simp [reset, hcase]
  · constructor
    · by_cases hs : sid = req.session_id.getD "default"
      · subst hs
        simp [reset, hcase]
      · simp [reset, hcase, hs]
    · intro hne
      simp [reset, hcase, hne]

/-- C10 witness: resetting alice leaves bob's handler untouched and the
unknown session zoe still unregistered. -/
theorem c10_witness :
    ((reset sampleRegistry { session_id := some "alice" }).1 "zoe").isSome
      = (sampleRegistry "zoe").isSome
    ∧ (reset sampleRegistry { session_id := some "alice" }).1 "bob"
      = sampleRegistry "bob" :=
  ⟨(c10_reset_preserves_domain_and_other_sessions sampleRegistry
      { session_id := some "alice" } "zoe").1,
   (c10_reset_preserves_domain_and_other_sessions sampleRegistry
      { session_id := some "alice" } "bob").2 (by decide)⟩

end Mgp
